import Mathlib

/-!
Shallow embedding of `decon.py` (NDCyberSec/Decon): a CLI wrapper that runs
`nmap` with one of two fixed argument profiles, tees the output of the child
process to the console and to a timestamped log file, and reports status.

The embedding models the effects of the program explicitly: console output is a list
of printed strings, filesystem effects are lists of created directories and
written files, and the nondeterministic environment (what the spawned child
process does, whether the preflight `nmap --version` check succeeds, the
current timestamp) is passed in as explicit parameters.
-/

namespace Decon

/-- The 70-character separator string `"="*70` used in banners and headers. -/
def sep70 : String := String.mk (List.replicate 70 '=')

/-- The `Enumerator` object state: `target`, `mode`, and
`output_dir = Path.home() / target` (paths modelled as strings joined by "/"). -/
structure Enumerator where
  target : String
  mode : String
  output_dir : String
deriving DecidableEq

/-- Model of `Path.home() / target`, the output directory computed in `__init__`. -/
def homeOutputDir (home target : String) : String := home ++ "/" ++ target

/-- What the environment does when `run_command` executes its `try` block:
either `open()` raises (no file is created), or `subprocess.Popen` raises
(the header has already been written to the opened file), or the child runs,
producing a stream of output lines and a final exit code. -/
inductive ExecOutcome where
  | openError (msg : String)
  | spawnError (msg : String)
  | ran (lines : List String) (returncode : Int)
deriving DecidableEq

/-- Model of the path expression in `run_command` joining the output directory
with the timestamp-qualified file name. -/
def output_path (dir timestamp output_file : String) : String :=
  dir ++ "/" ++ (timestamp ++ "_" ++ output_file)

/-- The header block written by the four `f.write` calls at the top of the
log file: command line, timestamp, target, separator line, then a blank line
(the last write is `"#" + "="*70 + "\n\n"`). -/
def headerStr (cmd : List String) (timestamp target : String) : String :=
  ("# Command: " ++ String.intercalate " " cmd ++ "\n") ++
  ("# Timestamp: " ++ timestamp ++ "\n") ++
  ("# Target: " ++ target ++ "\n") ++
  ("#" ++ sep70 ++ "\n\n")

/-- Worker for `splitLines`: splits a character list at newline characters,
accumulating the current line in reverse. -/
def splitLinesAux : List Char → List Char → List (List Char)
  | [], acc => [acc.reverse]
  | c :: cs, acc =>
      if c = '\n' then acc.reverse :: splitLinesAux cs []
      else splitLinesAux cs (c :: acc)

/-- Specification-side view of a file body as a list of lines (character
lists), split at newline characters. -/
def splitLines (s : String) : List (List Char) :=
  splitLinesAux s.data []

/-- The observable effects of one `run_command` call: console prints, files
written (path, final content), and the boolean return value. -/
structure RunEffects where
  console : List String
  fileWrites : List (String × String)
  result : Bool
deriving DecidableEq

/-- Model of `Enumerator.run_command`: computes the timestamped output path, prints the
command and destination, then inside `try`: opens the file, writes the header,
spawns the child, tees each output line to console and file, waits, and prints
a status line keyed on the exit code.  Any exception is caught, a diagnostic is
printed and `False` is returned; otherwise `True` is returned (regardless of
the exit code of the child process). -/
def Enumerator.run_command (e : Enumerator) (timestamp : String)
    (outcome : ExecOutcome) (cmd : List String) (output_file : String) :
    RunEffects :=
  let path := output_path e.output_dir timestamp output_file
  let pre : List String :=
    ["\n[+] Running: " ++ String.intercalate " " cmd,
     "[*] Saving to: " ++ path]
  match outcome with
  | .openError msg =>
      { console := pre ++ ["[✗] Error running command: " ++ msg],
        fileWrites := [],
        result := false }
  | .spawnError msg =>
      { console := pre ++ ["[✗] Error running command: " ++ msg],
        fileWrites := [(path, headerStr cmd timestamp e.target)],
        result := false }
  | .ran lines rc =>
      { console := pre ++ lines ++
          [if rc = 0 then "[✓] Completed successfully"
           else "[!] Command exited with code " ++ toString rc],
        fileWrites := [(path, headerStr cmd timestamp e.target ++ String.join lines)],
        result := true }

/-- The CTF-profile command list built in `nmap_ctf`. -/
def nmap_ctf_cmd (target : String) : List String :=
  ["nmap", "-sC", "-sV", "-Pn", "-T4", target]

/-- The REAL-profile command list built in `nmap_realworld`. -/
def nmap_realworld_cmd (target : String) : List String :=
  ["nmap", "-sV", "-Pn", "--open", "-p-", target]

/-- Model of `Enumerator.nmap_ctf`: runs the CTF profile, logging to `nmap_ctf.txt`. -/
def Enumerator.nmap_ctf (e : Enumerator) (timestamp : String)
    (outcome : ExecOutcome) : RunEffects :=
  e.run_command timestamp outcome (nmap_ctf_cmd e.target) "nmap_ctf.txt"

/-- Model of `Enumerator.nmap_realworld`: runs the REAL profile, logging to
`nmap_full.txt`. -/
def Enumerator.nmap_realworld (e : Enumerator) (timestamp : String)
    (outcome : ExecOutcome) : RunEffects :=
  e.run_command timestamp outcome (nmap_realworld_cmd e.target) "nmap_full.txt"

/-- Effects of `run_enumeration` (the `run_command` return value is discarded
by `nmap_ctf`/`nmap_realworld`, so only console and file effects remain). -/
structure EnumEffects where
  console : List String
  fileWrites : List (String × String)
deriving DecidableEq

/-- Model of `Enumerator.run_enumeration`: prints the opening banner, dispatches on the
mode (`"ctf"` or `"real"`; anything else runs no scan), then unconditionally
prints the completion banner naming the output directory. -/
def Enumerator.run_enumeration (e : Enumerator) (timestamp : String)
    (outcome : ExecOutcome) : EnumEffects :=
  let banner : List String :=
    ["\n" ++ sep70,
     "Smart Enumerator - " ++ e.mode.toUpper ++ " Mode",
     "Target: " ++ e.target,
     sep70]
  let scan : RunEffects :=
    if e.mode = "ctf" then e.nmap_ctf timestamp outcome
    else if e.mode = "real" then e.nmap_realworld timestamp outcome
    else { console := [], fileWrites := [], result := true }
  let closing : List String :=
    ["\n" ++ sep70,
     "[✓] Enumeration complete!",
     "[*] Results saved in: " ++ e.output_dir,
     sep70 ++ "\n"]
  { console := banner ++ scan.console ++ closing,
    fileWrites := scan.fileWrites }

/-- Result of `argparse.parse_args` for the argument parsing of `main`: either a parsed
`(target, mode)` pair, or a usage error (argparse prints it and exits 2). -/
inductive ParseResult where
  | ok (target mode : String)
  | usageError (msg : String)
deriving DecidableEq

/-- Worker for the argparse model: scans the argument list, filling the
`target` and `mode` slots.  `-t` / `--target` stores the next token verbatim
(any string, including the empty string); `-m` / `--mode` requires the next token
to be one of the choices `ctf`/`real`; at end of input, each `required=True`
option must have been seen. -/
def parse_args_go : List String → Option String → Option String → ParseResult
  | [], some t, some m => .ok t m
  | [], none, _ => .usageError "error: the following arguments are required: -t/--target"
  | [], some _, none => .usageError "error: the following arguments are required: -m/--mode"
  | [a], _, _ =>
      if a = "-t" ∨ a = "--target" ∨ a = "-m" ∨ a = "--mode" then
        .usageError ("error: argument " ++ a ++ ": expected one argument")
      else .usageError ("error: unrecognized arguments: " ++ a)
  | a :: v :: rest, t, m =>
      if a = "-t" ∨ a = "--target" then parse_args_go rest (some v) m
      else if a = "-m" ∨ a = "--mode" then
        if v = "ctf" ∨ v = "real" then parse_args_go rest t (some v)
        else .usageError "error: argument -m/--mode: invalid choice"
      else .usageError ("error: unrecognized arguments: " ++ a)

/-- The argparse model for the CLI of `main`: `-t` / `--target` (required, stored
verbatim) and `-m` / `--mode` (required, choices `ctf`/`real`). -/
def parse_args (argv : List String) : ParseResult :=
  parse_args_go argv none none

/-- Decidable success test on a `ParseResult`: did argument parsing produce a
`(target, mode)` pair? -/
def ParseResult.isOk : ParseResult → Bool
  | .ok _ _ => true
  | .usageError _ => false

/-- Outcome of the preflight `subprocess.run` version-query dependency check
in `main` (run with `check=True`). -/
inductive PreflightResult where
  | ok
  | calledProcessError
  | fileNotFound
deriving DecidableEq

/-- The observable effects of one whole `main` invocation. -/
structure MainOutcome where
  console : List String
  dirsCreated : List String
  fileWrites : List (String × String)
  exitCode : Nat
deriving DecidableEq

/-- Model of `main`: parses arguments (usage errors exit 2 before anything else); runs
the preflight nmap check (on `CalledProcessError`/`FileNotFoundError` prints a
diagnostic and exits 1 with no side effects); only then constructs the
`Enumerator` (which creates the output directory and prints it) and calls
`run_enumeration`. -/
def main_model (home : String) (argv : List String) (pre : PreflightResult)
    (timestamp : String) (outcome : ExecOutcome) : MainOutcome :=
  match parse_args argv with
  | .usageError msg =>
      { console := [msg], dirsCreated := [], fileWrites := [], exitCode := 2 }
  | .ok target mode =>
    match pre with
    | .calledProcessError =>
        { console := ["[✗] Error: nmap is not installed or not in PATH"],
          dirsCreated := [], fileWrites := [], exitCode := 1 }
    | .fileNotFound =>
        { console := ["[✗] Error: nmap is not installed or not in PATH"],
          dirsCreated := [], fileWrites := [], exitCode := 1 }
    | .ok =>
        let e : Enumerator := ⟨target, mode, homeOutputDir home target⟩
        let r := e.run_enumeration timestamp outcome
        { console := ("[*] Output directory: " ++ e.output_dir) :: r.console,
          dirsCreated := [e.output_dir],
          fileWrites := r.fileWrites,
          exitCode := 0 }

/-! ## Theorems -/

/-- C2: for every target string, the CTF-mode command is deterministically the
fixed token sequence `["nmap", "-sC", "-sV", "-Pn", "-T4", target]` with the
target as the final token; in particular, for target `"10.10.10.1"` it equals
`["nmap", "-sC", "-sV", "-Pn", "-T4", "10.10.10.1"]`. -/
theorem c2_ctf_command_fixed (target : String) :
    nmap_ctf_cmd target = ["nmap", "-sC", "-sV", "-Pn", "-T4", target] ∧
    (nmap_ctf_cmd target).getLast? = some target ∧
    nmap_ctf_cmd "10.10.10.1" = ["nmap", "-sC", "-sV", "-Pn", "-T4", "10.10.10.1"] :=
  ⟨rfl, rfl, rfl⟩

/-- C3: for every target string, the REAL-mode command is deterministically the
fixed token sequence `["nmap", "-sV", "-Pn", "--open", "-p-", target]` with the
target as the final token; in particular, for target `"example.com"` it equals
`["nmap", "-sV", "-Pn", "--open", "-p-", "example.com"]`. -/
theorem c3_real_command_fixed (target : String) :
    nmap_realworld_cmd target = ["nmap", "-sV", "-Pn", "--open", "-p-", target] ∧
    (nmap_realworld_cmd target).getLast? = some target ∧
    nmap_realworld_cmd "example.com" = ["nmap", "-sV", "-Pn", "--open", "-p-", "example.com"] :=
  ⟨rfl, rfl, rfl⟩

/-- C1 (counterexample): when the child process exits with code 137,
`run_command` still returns `true`, so its returned success indicator does not
equal `(exitCode == 0)`. -/
theorem c1_counterexample :
    (Enumerator.run_command ⟨"10.10.10.1", "ctf", "/root/10.10.10.1"⟩
        "20240101_120000" (.ran ["out\n"] 137)
        (nmap_ctf_cmd "10.10.10.1") "nmap_ctf.txt").result ≠ ((137 : Int) == 0) := by
  decide

/-- C1 (amended): `run_command` returns `true` whenever the child process was
spawned and ran to termination, regardless of its exit code, and returns
`false` exactly when an exception occurred (opening the file or spawning the
child); the exit code only selects the final console status line, which is the
success message precisely when the exit code is zero and otherwise the warning
naming the exit code. -/
theorem c1_run_command_result (e : Enumerator) (timestamp : String)
    (lines : List String) (rc : Int) (cmd : List String) (output_file msg : String) :
    (e.run_command timestamp (.ran lines rc) cmd output_file).result = true ∧
    (e.run_command timestamp (.spawnError msg) cmd output_file).result = false ∧
    (e.run_command timestamp (.openError msg) cmd output_file).result = false ∧
    (e.run_command timestamp (.ran lines rc) cmd output_file).console.getLast? =
      some (if rc = 0 then "[✓] Completed successfully"
            else "[!] Command exited with code " ++ toString rc) := by
  refine ⟨rfl, rfl, rfl, ?_⟩
  show ((_ ++ lines) ++ [_]).getLast? = _
  exact List.getLast?_concat _

/-- C5: when the child process cannot be found or spawned, `run_command`
catches the failure, prints a diagnostic naming the error, and returns `false`
to its caller (the model is a total function: no exception escapes). -/
theorem c5_spawn_error_handled (e : Enumerator) (timestamp msg output_file : String)
    (cmd : List String) :
    (e.run_command timestamp (.spawnError msg) cmd output_file).result = false ∧
    ("[✗] Error running command: " ++ msg) ∈
      (e.run_command timestamp (.spawnError msg) cmd output_file).console := by
  refine ⟨rfl, ?_⟩
  simp [Enumerator.run_command]

/-- C10: when spawning the child process fails, the timestamped output file has
already been created and holds exactly the header block, and the run is
reported as failed (`run_command` returns `false`). -/
theorem c10_header_only_file (e : Enumerator) (timestamp msg output_file : String)
    (cmd : List String) :
    (e.run_command timestamp (.spawnError msg) cmd output_file).fileWrites =
      [(output_path e.output_dir timestamp output_file,
        headerStr cmd timestamp e.target)] ∧
    (e.run_command timestamp (.spawnError msg) cmd output_file).result = false :=
  ⟨rfl, rfl⟩

/-- C8: every log file created by a completed run consists of the 4-line
header block (literal command line, timestamp, target, separator line) ending
in a blank line, followed by exactly the raw interleaved output of the external
process; a concrete run shows the line structure explicitly. -/
theorem c8_log_file_layout (e : Enumerator) (timestamp output_file : String)
    (cmd lines : List String) (rc : Int) :
    ((e.run_command timestamp (.ran lines rc) cmd output_file).fileWrites =
      [(output_path e.output_dir timestamp output_file,
        ("# Command: " ++ String.intercalate " " cmd ++ "\n") ++
        ("# Timestamp: " ++ timestamp ++ "\n") ++
        ("# Target: " ++ e.target ++ "\n") ++
        ("#" ++ sep70 ++ "\n\n") ++
        String.join lines)]) ∧
    ((Enumerator.run_command ⟨"10.10.10.1", "ctf", "/root/10.10.10.1"⟩
        "20240101_120000" (.ran ["Starting Nmap\n", "done\n"] 0)
        (nmap_ctf_cmd "10.10.10.1") "nmap_ctf.txt").fileWrites.map
          fun w => splitLines w.2) =
      [["# Command: nmap -sC -sV -Pn -T4 10.10.10.1".data,
        "# Timestamp: 20240101_120000".data,
        "# Target: 10.10.10.1".data,
        ("#" ++ sep70).data,
        [],
        "Starting Nmap".data,
        "done".data,
        []]] := by
  exact ⟨rfl, by decide⟩

/-- C4: when the child process terminates with a non-zero exit code, the
console transcript of `run_enumeration` contains a warning line naming that
exit code and still contains the completion banner naming the output
directory (the non-zero exit is not a hard error). -/
theorem c4_nonzero_exit_soft (e : Enumerator) (timestamp : String)
    (lines : List String) (rc : Int)
    (hmode : e.mode = "ctf" ∨ e.mode = "real") (hrc : rc ≠ 0) :
    ("[!] Command exited with code " ++ toString rc) ∈
      (e.run_enumeration timestamp (.ran lines rc)).console ∧
    ("[*] Results saved in: " ++ e.output_dir) ∈
      (e.run_enumeration timestamp (.ran lines rc)).console := by
  rcases hmode with h | h <;>
    simp [Enumerator.run_enumeration, h, Enumerator.nmap_ctf, Enumerator.nmap_realworld,
      Enumerator.run_command, hrc]

/-- Witness for C4 at exit code 137 in CTF mode. -/
theorem c4_witness :
    ("[!] Command exited with code " ++ toString (137 : Int)) ∈
      (Enumerator.run_enumeration ⟨"10.10.10.1", "ctf", "/root/10.10.10.1"⟩
        "20240101_120000" (.ran [] 137)).console ∧
    ("[*] Results saved in: " ++ "/root/10.10.10.1") ∈
      (Enumerator.run_enumeration ⟨"10.10.10.1", "ctf", "/root/10.10.10.1"⟩
        "20240101_120000" (.ran [] 137)).console :=
  c4_nonzero_exit_soft ⟨"10.10.10.1", "ctf", "/root/10.10.10.1"⟩ "20240101_120000" [] 137
    (Or.inl rfl) (by decide)

/-- C6: when the preflight version-query of the external tool fails (tool
absent or invocation error), `main` prints the diagnostic and exits with
status 1, creating no output directory and writing no files. -/
theorem c6_preflight_gate (home : String) (argv : List String) (target mode : String)
    (pre : PreflightResult) (timestamp : String) (outcome : ExecOutcome)
    (hp : parse_args argv = .ok target mode) (hpre : pre ≠ .ok) :
    main_model home argv pre timestamp outcome =
      { console := ["[✗] Error: nmap is not installed or not in PATH"],
        dirsCreated := [], fileWrites := [], exitCode := 1 } := by
  unfold main_model
  rw [hp]
  cases pre with
  | ok => exact absurd rfl hpre
  | calledProcessError => rfl
  | fileNotFound => rfl

/-- Witness for C6: a well-formed command line with `nmap` missing. -/
theorem c6_witness :
    main_model "/root" ["-t", "10.10.10.1", "-m", "ctf"] .fileNotFound
        "20240101_120000" (.ran [] 0) =
      { console := ["[✗] Error: nmap is not installed or not in PATH"],
        dirsCreated := [], fileWrites := [], exitCode := 1 } :=
  c6_preflight_gate "/root" ["-t", "10.10.10.1", "-m", "ctf"] "10.10.10.1" "ctf"
    .fileNotFound "20240101_120000" (.ran [] 0) (by decide) (by decide)

/-- Helper: `output_path` is injective in the timestamp for a fixed directory
and file name. -/
theorem output_path_timestamp_inj (dir output_file t1 t2 : String)
    (h : output_path dir t1 output_file = output_path dir t2 output_file) :
    t1 = t2 := by
  have hd := congrArg String.data h
  simp only [output_path, String.data_append, List.append_assoc] at hd
  have h1 := List.append_cancel_left hd
  have h2 := List.append_cancel_left h1
  have h3 := List.append_cancel_right h2
  exact String.ext h3

/-- Helper: every file path written by `run_command` is its timestamped output
path. -/
theorem run_command_write_path (e : Enumerator) (timestamp : String)
    (outcome : ExecOutcome) (cmd : List String) (output_file p : String)
    (hp : p ∈ (e.run_command timestamp outcome cmd output_file).fileWrites.map Prod.fst) :
    p = output_path e.output_dir timestamp output_file := by
  cases outcome <;> simp [Enumerator.run_command] at hp <;> exact hp

/-- C7: two runs with distinct timestamps write to distinct output paths, even
for the same directory and output file name, so neither log file is
overwritten by the other. -/
theorem c7_no_collision (e : Enumerator) (t1 t2 : String) (oc1 oc2 : ExecOutcome)
    (cmd1 cmd2 : List String) (output_file : String) (h : t1 ≠ t2) :
    output_path e.output_dir t1 output_file ≠ output_path e.output_dir t2 output_file ∧
    List.Disjoint
      ((e.run_command t1 oc1 cmd1 output_file).fileWrites.map Prod.fst)
      ((e.run_command t2 oc2 cmd2 output_file).fileWrites.map Prod.fst) := by
  refine ⟨fun hc => h (output_path_timestamp_inj _ _ _ _ hc), ?_⟩
  intro p hp hq
  have h1 := run_command_write_path e t1 oc1 cmd1 output_file p hp
  have h2 := run_command_write_path e t2 oc2 cmd2 output_file p hq
  exact h (output_path_timestamp_inj _ _ _ _ (h1 ▸ h2))

/-- Witness for C7 at two timestamps one second apart. -/
theorem c7_witness :
    output_path "/root/10.10.10.1" "20240101_120000" "nmap_ctf.txt" ≠
      output_path "/root/10.10.10.1" "20240101_120001" "nmap_ctf.txt" ∧
    List.Disjoint
      ((Enumerator.run_command ⟨"10.10.10.1", "ctf", "/root/10.10.10.1"⟩ "20240101_120000"
          (.ran [] 0) (nmap_ctf_cmd "10.10.10.1") "nmap_ctf.txt").fileWrites.map Prod.fst)
      ((Enumerator.run_command ⟨"10.10.10.1", "ctf", "/root/10.10.10.1"⟩ "20240101_120001"
          (.ran [] 0) (nmap_ctf_cmd "10.10.10.1") "nmap_ctf.txt").fileWrites.map Prod.fst) :=
  c7_no_collision ⟨"10.10.10.1", "ctf", "/root/10.10.10.1"⟩ "20240101_120000" "20240101_120001"
    (.ran [] 0) (.ran [] 0) (nmap_ctf_cmd "10.10.10.1") (nmap_ctf_cmd "10.10.10.1")
    "nmap_ctf.txt" (by decide)

/-- Helper: if neither `-t` nor `--target` occurs in the remaining argument
list and the target slot is empty, `parse_args_go` cannot succeed. -/
theorem parse_args_go_no_target : ∀ (n : Nat) (l : List String), l.length ≤ n →
    ∀ (m : Option String), "-t" ∉ l → "--target" ∉ l →
    ∀ t' m', parse_args_go l none m ≠ .ok t' m' := by
  intro n
  induction n with
  | zero =>
    intro l hl m h1 h2 t' m'
    have hnil : l = [] := List.length_eq_zero.mp (Nat.le_zero.mp hl)
    subst hnil
    simp [parse_args_go]
  | succ n ih =>
    intro l hl m h1 h2 t' m'
    rcases l with _ | ⟨a, _ | ⟨v, rest⟩⟩
    · simp [parse_args_go]
    · rw [parse_args_go]
      split <;> exact fun hcon => ParseResult.noConfusion hcon
    · simp only [List.mem_cons, not_or] at h1 h2
      obtain ⟨ha1, _, hr1⟩ := h1
      obtain ⟨ha2, _, hr2⟩ := h2
      have hA : ¬(a = "-t" ∨ a = "--target") := by
        rintro (hcon | hcon)
        · exact ha1 hcon.symm
        · exact ha2 hcon.symm
      rw [parse_args_go, if_neg hA]
      by_cases hM : a = "-m" ∨ a = "--mode"
      · rw [if_pos hM]
        by_cases hv : v = "ctf" ∨ v = "real"
        · rw [if_pos hv]
          have hlen : rest.length ≤ n := by
            simp only [List.length_cons] at hl
            omega
          exact ih rest hlen (some v) hr1 hr2 t' m'
        · rw [if_neg hv]
          exact fun hcon => ParseResult.noConfusion hcon
      · rw [if_neg hM]
        exact fun hcon => ParseResult.noConfusion hcon

/-- C9 (counterexample): the invocation `-t "" -m ctf` is accepted by the
argument-handling layer with the empty string as target, so an empty target is
not rejected. -/
theorem c9_counterexample :
    parse_args ["-t", "", "-m", "ctf"] = ParseResult.ok "" "ctf" := by
  decide

/-- C9 (amended): the target argument is required — any invocation with no
`-t` / `--target` token fails argument parsing before any Runner logic — but
no validation beyond presence is performed: the empty-string target is
accepted and stored verbatim. -/
theorem c9_target_required_not_validated (argv : List String)
    (h1 : "-t" ∉ argv) (h2 : "--target" ∉ argv) :
    (parse_args argv).isOk = false ∧
    parse_args ["-t", "", "-m", "ctf"] = ParseResult.ok "" "ctf" := by
  refine ⟨?_, by decide⟩
  cases hp : parse_args argv with
  | ok t m =>
      exact absurd hp (parse_args_go_no_target argv.length argv le_rfl none h1 h2 t m)
  | usageError msg => rfl

/-- Witness for C9 at an invocation giving only the mode. -/
theorem c9_witness :
    (parse_args ["-m", "ctf"]).isOk = false ∧
    parse_args ["-t", "", "-m", "ctf"] = ParseResult.ok "" "ctf" :=
  c9_target_required_not_validated ["-m", "ctf"] (by decide) (by decide)

end Decon
